import Mathlib

/-! Shallow embedding of the contact-list-cleanup program: the data model,
the classification chain of filters.py, the list-processing helpers of
utils.py and cleanup.py, the paginated fetch and the per-record delete loops
of google_api.py and cleanup.py, and an idealised-clock semantics of the
rate-limiting decorator of utils.py. -/

/-- A phone-number entry of a contact. `contactGroupMembership` records
whether the entry carries the "contactGroupMembership" key (the label tag on
the number itself), which is exactly what PhoneNumberWithLabelHandler tests
with `"contactGroupMembership" in phone`. -/
structure PhoneNumber where
  value : String
  contactGroupMembership : Bool
  deriving DecidableEq

/-- A group membership of a contact. `contactGroupResourceName` is the string
reached by `membership.get("contactGroupMembership", {}).get("contactGroupResourceName", "")`,
with the two defaulting lookups collapsed into one field (missing keys give ""). -/
structure GroupMembership where
  contactGroupResourceName : String
  deriving DecidableEq

/-- A contact record, keeping exactly the fields the program reads:
"resourceName", the displayNames of the "names" entries, "phoneNumbers" and
"memberships". -/
structure Contact where
  resourceName : String
  names : List String
  phoneNumbers : List PhoneNumber
  memberships : List GroupMembership
  deriving DecidableEq

/-- MultipleLabelsHandler.handle (filters.py line 41): keeps the record when
it has more than one membership. After record_filters() has wired the chain
this handler's _next_handler is still None, so AbstractHandler.handle falls
through and Python returns None, embedded as `none`. -/
def MultipleLabelsHandler.handle (c : Contact) : Option (String × String) :=
  if c.memberships.length > 1 then some ("Skipped", "More than one label") else none

/-- MultiplePhoneNumbersHandler.handle (filters.py line 33); its
_next_handler after record_filters() is multiple_labels_handler. -/
def MultiplePhoneNumbersHandler.handle (c : Contact) : Option (String × String) :=
  if c.phoneNumbers.length > 1 then some ("Skipped", "More than one phone number")
  else MultipleLabelsHandler.handle c

/-- PhoneNumberWithLabelHandler.handle (filters.py line 24); its
_next_handler after record_filters() is multiple_phone_numbers_handler. -/
def PhoneNumberWithLabelHandler.handle (c : Contact) : Option (String × String) :=
  if c.phoneNumbers.any (fun p => p.contactGroupMembership) then
    some ("Skipped", "Phone number has a label")
  else MultiplePhoneNumbersHandler.handle c

/-- filters.record_filters() followed by .handle: `set_next` returns its
argument, so `phone_number_with_label_handler.set_next(m).set_next(l)` wires
the links p → m → l but the expression evaluates to the LAST handler,
multiple_labels_handler. The classifier the pipeline actually invokes with
`record_filters().handle(contact)` is therefore MultipleLabelsHandler.handle. -/
def record_filters_handle : Contact → Option (String × String) :=
  MultipleLabelsHandler.handle

/-- utils.filter_contacts, parameterised (as in utils.py) by the classifier
obtained from `record_filters().handle`: each contact goes to the skipped
list when the classifier returns a (truthy) tuple, otherwise to the
to-delete list, preserving input order. -/
def filter_contactsP (rf : Contact → Option (String × String)) :
    List Contact → List Contact × List Contact
  | [] => ([], [])
  | c :: cs =>
    let r := filter_contactsP rf cs
    if (rf c).isSome then (c :: r.1, r.2) else (r.1, c :: r.2)

/-- cleanup.filter_contacts: the same loop with the classifier fixed to
`record_filters().handle`. -/
def filter_contacts (cs : List Contact) : List Contact × List Contact :=
  filter_contactsP record_filters_handle cs

/-- format_contact inside save_to_files: the display name (or "Unknown") and
the phone numbers each reduced to the last 10 digit characters of their
value, joined with "|". -/
def format_contact (c : Contact) : String × String :=
  let name := match c.names with
    | [] => "Unknown"
    | n :: _ => n
  let fmt := fun (p : PhoneNumber) =>
    let ds := p.value.data.filter Char.isDigit
    String.mk (ds.drop (ds.length - 10))
  (String.intercalate "|" (c.phoneNumbers.map fmt), name)

/-- The row loop of save_to_files for the skipped file: each row re-runs the
chain via `record_filters().handle(contact)[1]`; if the chain returned None
that indexing would raise a TypeError, which the embedding reports as `none`. -/
def reason_rows : List Contact → Option (List (String × String × String))
  | [] => some []
  | c :: cs =>
    match record_filters_handle c with
    | none => none
    | some r => (reason_rows cs).map
        (fun rows => ((format_contact c).1, (format_contact c).2, r.2) :: rows)

/-- save_to_files: produces the rows of skipped_contacts.csv (with the
recomputed reason column) and of to_delete_contacts.csv; `none` models the
TypeError raised when a skipped contact's classification is None. -/
def save_to_files (skipped toDelete : List Contact) :
    Option (List (String × String × String) × List (String × String × String)) :=
  (reason_rows skipped).map
    (fun rows => (rows, toDelete.map
      (fun c => ((format_contact c).1, (format_contact c).2, "To delete"))))

/-- The minimum inter-call interval of utils.rate_limited_calls_per_min:
`min_interval = 60.0 / float(max_per_minute)`, over an idealised exact
rational clock. -/
def min_interval (maxPerMinute : ℚ) : ℚ := 60 / maxPerMinute

/-- Start time of one throttled call: `elapsed = now - last`,
`left_to_wait = T - elapsed`; when positive the wrapper sleeps exactly that
long before invoking the wrapped function, otherwise it proceeds at once. -/
def throttleStart (T last now : ℚ) : ℚ :=
  if 0 < T - (now - last) then now + (T - (now - last)) else now

/-- One pass through rate_limited_function with wrapped-call duration `dur`,
arriving at time `now` with stored timestamp `last`: returns (start time of
the wrapped call, new last_time_called). The source reads perf_counter AFTER
func returns, so the recorded timestamp is the completion time start + dur. -/
def rate_limited_function (T last now dur : ℚ) : ℚ × ℚ :=
  (throttleStart T last now, throttleStart T last now + dur)

/-- A tight sequential loop of throttled calls with the given wrapped-call
durations: each next call arrives exactly when the previous one returned,
which is also when the timestamp was recorded. Returns the call start times. -/
def runCalls (T : ℚ) : ℚ → ℚ → List ℚ → List ℚ
  | _, _, [] => []
  | last, now, d :: ds =>
    let r := rate_limited_function T last now d
    r.1 :: runCalls T r.2 r.2 ds

/-- One response of the remote collection endpoint to a connections.list
call: a page of connections with an optional nextPageToken, or an HTTP error
status. -/
inductive Resp where
  | page (connections : List Contact) (nextPageToken : Option String)
  | httpError (status : Nat)
  deriving DecidableEq

/-- Outcome of a fetch loop run against a response script: the returned
contact list, or the `return None` branch, together with the sleeps performed
and the number of API calls issued. `hung` marks a script that ran out while
the loop would still be calling. -/
inductive FetchResult where
  | success (contacts : List Contact) (waits : List Nat) (calls : Nat)
  | failure (waits : List Nat) (calls : Nat)
  | hung (waits : List Nat) (calls : Nat)
  deriving DecidableEq

/-- The client-side label filter applied to every fetched page: keep a
connection when some membership's contactGroupResourceName equals the label
resource name. The label is an Option because execute passes whatever
get_label_id returned, including None, through unchecked; comparing a string
against None is always false in Python, hence the `some` on the left. -/
def label_filtered (label : Option String) (conns : List Contact) : List Contact :=
  conns.filter (fun c => c.memberships.any
    (fun m => some m.contactGroupResourceName == label))

/-- The fetch loop shared verbatim by google_api.fetch_contacts and
cleanup.fetch_contacts, run on a script of responses (one per issued call).
State threaded exactly as in the source: `retries` (incremented on each
transient failure and never reset inside a fetch), the current `backoff`
(doubled after each sleep, reset to the initial value after each page that
carries a next token), the accumulator, the sleeps performed, and the call
count. A page whose token is absent or falsy ("") ends the loop. -/
def fetchGo (label : Option String) (initialBackoff maxRetries : Nat) :
    List Resp → Nat → Nat → List Contact → List Nat → Nat → FetchResult
  | [], _, _, _, waits, calls => .hung waits calls
  | .page conns tok :: rest, retries, _, acc, waits, calls =>
    let acc2 := acc ++ label_filtered label conns
    match tok with
    | none => .success acc2 waits (calls + 1)
    | some t =>
      if t = "" then .success acc2 waits (calls + 1)
      else fetchGo label initialBackoff maxRetries rest retries initialBackoff
            acc2 waits (calls + 1)
  | .httpError s :: rest, retries, backoff, acc, waits, calls =>
    if (s = 503 ∨ s = 429) ∧ retries < maxRetries then
      fetchGo label initialBackoff maxRetries rest (retries + 1) (backoff * 2)
        acc (waits ++ [backoff]) (calls + 1)
    else .failure waits (calls + 1)

/-- google_api.fetch_contacts run against a response script; its source
defaults are initial_backoff = 2 and max_retries = 6. -/
def fetch_contacts (label : Option String) (initialBackoff maxRetries : Nat)
    (script : List Resp) : FetchResult :=
  fetchGo label initialBackoff maxRetries script 0 initialBackoff [] [] 0

/-- cleanup.fetch_contacts: the identical loop with the backoff constant
hard-coded to 1 (both the initial value on line 47 and the per-page reset on
line 78) and a max_retries default of 5 (line 42). -/
def cleanup_fetch_contacts (label : Option String) (maxRetries : Nat)
    (script : List Resp) : FetchResult :=
  fetch_contacts label 1 maxRetries script

/-- Modelled from the spec (section 4.2 retry scoping): a variant of fetchGo
in which completing one logical page operation discards the retry state, so
every page starts with a fresh retry counter as well as a fresh backoff.
Declared only to contrast with fetchGo, which never resets `retries`. -/
def fetchGoSpecReset (label : Option String) (initialBackoff maxRetries : Nat) :
    List Resp → Nat → Nat → List Contact → List Nat → Nat → FetchResult
  | [], _, _, _, waits, calls => .hung waits calls
  | .page conns tok :: rest, _, _, acc, waits, calls =>
    let acc2 := acc ++ label_filtered label conns
    match tok with
    | none => .success acc2 waits (calls + 1)
    | some t =>
      if t = "" then .success acc2 waits (calls + 1)
      else fetchGoSpecReset label initialBackoff maxRetries rest 0 initialBackoff
            acc2 waits (calls + 1)
  | .httpError s :: rest, retries, backoff, acc, waits, calls =>
    if (s = 503 ∨ s = 429) ∧ retries < maxRetries then
      fetchGoSpecReset label initialBackoff maxRetries rest (retries + 1) (backoff * 2)
        acc (waits ++ [backoff]) (calls + 1)
    else .failure waits (calls + 1)

/-- Entry point of the spec-modelled per-page-reset fetch variant. -/
def fetch_contacts_specReset (label : Option String) (initialBackoff maxRetries : Nat)
    (script : List Resp) : FetchResult :=
  fetchGoSpecReset label initialBackoff maxRetries script 0 initialBackoff [] [] 0

/-- One response of the remote delete endpoint to a deleteContact call. -/
inductive DelResp where
  | ok
  | httpError (status : Nat)
  deriving DecidableEq

/-- The inner while-loop of delete_contacts for one record: consume one
response per attempt; on a transient status (429 or 503) under the retry cap
sleep the current backoff, double it and retry; on success or any other
failure break. Returns (success flag, remaining script, sleeps performed),
or `none` when the script ran out mid-record. -/
def delete_one (maxRetries : Nat) :
    List DelResp → Nat → Nat → Option (Bool × List DelResp × List Nat)
  | [], _, _ => none
  | .ok :: rest, _, _ => some (true, rest, [])
  | .httpError s :: rest, retries, backoff =>
    if (s = 429 ∨ s = 503) ∧ retries < maxRetries then
      (delete_one maxRetries rest (retries + 1) (backoff * 2)).map
        (fun r => (r.1, r.2.1, backoff :: r.2.2))
    else some (false, rest, [])

/-- delete_contacts (google_api.py line 119 and cleanup.py line 142, whose
loops are identical with defaults backoff 2 and max_retries 6): for each
record in input order run the inner retry loop with a fresh retries = 0 and,
because backoff_time is reset to the initial value after every record, a
fresh backoff. Returns per-record (resourceName, success) results in order,
the concatenated sleeps, and the total number of delete calls issued. -/
def delete_contacts (maxRetries initialBackoff : Nat) :
    List Contact → List DelResp → Option (List (String × Bool) × List Nat × Nat)
  | [], _ => some ([], [], 0)
  | c :: cs, ds =>
    match delete_one maxRetries ds 0 initialBackoff with
    | none => none
    | some r =>
      (delete_contacts maxRetries initialBackoff cs r.2.1).map
        (fun rec => ((c.resourceName, r.1) :: rec.1, r.2.2 ++ rec.2.1,
          r.2.2.length + 1 + rec.2.2))

/-- get_contact_group_resource_name over the contactGroups().list() result,
given as (name, resourceName) pairs: the resourceName of the first group
whose name equals the supplied label. A missing label (None) never equals a
group name, so resolution yields None. -/
def get_contact_group_resource_name (groups : List (String × String))
    (labelName : Option String) : Option String :=
  (groups.find? (fun g => some g.1 == labelName)).map (fun g => g.2)

/-- get_label_id: the same resolution; the extra print on failure changes
nothing observable here. -/
def get_label_id (groups : List (String × String)) (labelName : Option String) :
    Option String :=
  get_contact_group_resource_name groups labelName

/-- Observable trace of one cleanup.execute run: the resolved label, how many
contactGroups.list and connections.list calls were issued, how many CSV
files were written, how many delete calls were issued and their per-record
results, and whether the run ended in an uncaught exception. -/
structure ExecTrace where
  labelId : Option String
  groupListCalls : Nat
  fetchCalls : Nat
  filesWritten : Nat
  deleteCalls : Nat
  deleteResults : List (String × Bool)
  crashed : Bool
  deriving DecidableEq

/-- cleanup.execute run against a script: resolve the label (one
contactGroups.list call), fetch with cleanup.py's fetch_contacts (defaults:
backoff 1, max_retries 5), partition, save, then delete with backoff 2 and
max_retries 6. When the fetch fails permanently it returns None and
filter_contacts immediately raises TypeError on len(None): the run crashes
with no files written and no delete call issued. `none` is returned when the
script underdetermines the run (fetch hung or delete script exhausted). -/
def execute (groups : List (String × String)) (label : Option String)
    (ps : List Resp) (ds : List DelResp) : Option ExecTrace :=
  match cleanup_fetch_contacts (get_label_id groups label) 5 ps with
  | .hung _ _ => none
  | .failure _ calls =>
    some { labelId := get_label_id groups label, groupListCalls := 1,
           fetchCalls := calls, filesWritten := 0, deleteCalls := 0,
           deleteResults := [], crashed := true }
  | .success contacts _ calls =>
    match save_to_files (filter_contacts contacts).1 (filter_contacts contacts).2 with
    | none =>
      some { labelId := get_label_id groups label, groupListCalls := 1,
             fetchCalls := calls, filesWritten := 1, deleteCalls := 0,
             deleteResults := [], crashed := true }
    | some _ =>
      match delete_contacts 6 2 (filter_contacts contacts).2 ds with
      | none => none
      | some r =>
        some { labelId := get_label_id groups label, groupListCalls := 1,
               fetchCalls := calls, filesWritten := 2, deleteCalls := r.2.2,
               deleteResults := r.1, crashed := false }

/-! Sample records used by concrete theorems and witnesses. -/

/-- A phone number entry carrying its own contactGroupMembership tag. -/
def labeledPhone : PhoneNumber :=
  { value := "+1 555 123 4567", contactGroupMembership := true }

/-- A phone number entry without a label tag. -/
def plainPhone : PhoneNumber :=
  { value := "5550000000", contactGroupMembership := false }

/-- A contact with one plain phone number and two memberships. -/
def twoLabelContact : Contact :=
  { resourceName := "people/two", names := ["Two"],
    phoneNumbers := [plainPhone], memberships := [⟨"g1"⟩, ⟨"g2"⟩] }

/-- A contact with one plain phone number and a single membership. -/
def oneLabelContact : Contact :=
  { resourceName := "people/one", names := ["One"],
    phoneNumbers := [plainPhone], memberships := [⟨"g1"⟩] }

/-- A contact with a labeled phone number and two memberships. -/
def labeledPhoneTwoLabels : Contact :=
  { resourceName := "people/lp2", names := ["LP2"],
    phoneNumbers := [labeledPhone], memberships := [⟨"g1"⟩, ⟨"g2"⟩] }

/-- A contact with a labeled phone number and a single membership. -/
def labeledPhoneOneLabel : Contact :=
  { resourceName := "people/lp1", names := ["LP1"],
    phoneNumbers := [labeledPhone], memberships := [⟨"g1"⟩] }

/-- A contact belonging to the group g1. -/
def spamContact : Contact :=
  { resourceName := "people/c1", names := ["Spam One"],
    phoneNumbers := [], memberships := [⟨"g1"⟩] }

/-- A second contact belonging to the group g1. -/
def spamContact2 : Contact :=
  { resourceName := "people/c2", names := ["Spam Two"],
    phoneNumbers := [], memberships := [⟨"g1"⟩] }

/-! Helper lemmas about the partitioning loop and the save loop. -/

/-- The partitioning loop computes the two complementary filters of its
input, in input order. -/
theorem filter_contactsP_eq (rf : Contact → Option (String × String))
    (cs : List Contact) :
    filter_contactsP rf cs
      = (cs.filter (fun c => (rf c).isSome),
         cs.filter (fun c => !(rf c).isSome)) := by
  induction cs with
  | nil => rfl
  | cons a cs ih =>
    by_cases h : (rf a).isSome
    · have hne : rf a ≠ none := Option.isSome_iff_ne_none.mp h
      simp [filter_contactsP, List.filter_cons, h, ih, hne]
    · have hn : rf a = none := Option.not_isSome_iff_eq_none.mp h
      simp [filter_contactsP, List.filter_cons, h, ih, hn]

/-- Membership in the keep list of filter_contacts: exactly the input
records the classifier maps to a Some value. -/
theorem mem_filter_contactsP_fst (rf : Contact → Option (String × String))
    (cs : List Contact) (c : Contact) :
    c ∈ (filter_contactsP rf cs).1 ↔ c ∈ cs ∧ (rf c).isSome := by
  rw [filter_contactsP_eq]
  simp [List.mem_filter]

/-- Membership in the delete list of filter_contacts: exactly the input
records the classifier maps to None. -/
theorem mem_filter_contactsP_snd (rf : Contact → Option (String × String))
    (cs : List Contact) (c : Contact) :
    c ∈ (filter_contactsP rf cs).2 ↔ c ∈ cs ∧ rf c = none := by
  rw [filter_contactsP_eq]
  simp [List.mem_filter, Option.not_isSome_iff_eq_none]

/-- The two filter_contacts lists' lengths always sum to the input length. -/
theorem filter_contactsP_length (rf : Contact → Option (String × String))
    (cs : List Contact) :
    (filter_contactsP rf cs).1.length + (filter_contactsP rf cs).2.length
      = cs.length := by
  induction cs with
  | nil => simp [filter_contactsP]
  | cons a cs ih =>
    by_cases h : (rf a).isSome <;> simp [filter_contactsP, h] <;> omega

/-- The save loop for the skipped file succeeds as soon as every row's
re-classification is a Some value. -/
theorem reason_rows_isSome (l : List Contact)
    (h : ∀ c ∈ l, (record_filters_handle c).isSome) :
    (reason_rows l).isSome := by
  induction l with
  | nil => simp [reason_rows]
  | cons a l ih =>
    obtain ⟨r, hr⟩ := Option.isSome_iff_exists.mp (h a (List.mem_cons_self a l))
    obtain ⟨rows, hrows⟩ := Option.isSome_iff_exists.mp
      (ih (fun c hc => h c (List.mem_cons_of_mem a hc)))
    simp [reason_rows, hr, hrows]

/-- C1: the chain entry point the pipeline uses, record_filters().handle, is
the LAST handler of the chain, so rules 1 and 2 never fire: a record with a
labeled phone number and two memberships classifies as Keep("More than one
label"), and a record with a labeled phone number and a single membership
falls through to Delete, while the intended head of the chain returns
Keep("Phone number has a label") on both records. -/
theorem record_filters_entry_point_bug :
    record_filters_handle labeledPhoneTwoLabels
        = some ("Skipped", "More than one label")
    ∧ record_filters_handle labeledPhoneOneLabel = none
    ∧ PhoneNumberWithLabelHandler.handle labeledPhoneTwoLabels
        = some ("Skipped", "Phone number has a label")
    ∧ PhoneNumberWithLabelHandler.handle labeledPhoneOneLabel
        = some ("Skipped", "Phone number has a label") :=
  ⟨rfl, rfl, rfl, rfl⟩

/-- C2: filter_contacts partitions its input: the keep and delete lists'
lengths sum to the input length, every input record lands in at least one of
the two lists (and nothing else does), and no record lands in both. Stated
for the classifier-parameterised utils.filter_contacts, hence in particular
for cleanup.filter_contacts, its instance at record_filters_handle. -/
theorem filter_contacts_partition (rf : Contact → Option (String × String))
    (cs : List Contact) :
    ((filter_contactsP rf cs).1.length + (filter_contactsP rf cs).2.length
        = cs.length)
    ∧ (∀ c, c ∈ cs ↔
        (c ∈ (filter_contactsP rf cs).1 ∨ c ∈ (filter_contactsP rf cs).2))
    ∧ (∀ c, ¬(c ∈ (filter_contactsP rf cs).1 ∧ c ∈ (filter_contactsP rf cs).2)) := by
  refine ⟨filter_contactsP_length rf cs, fun c => ?_, fun c => ?_⟩
  · rw [mem_filter_contactsP_fst, mem_filter_contactsP_snd]
    constructor
    · intro hc
      by_cases h : (rf c).isSome
      · exact Or.inl ⟨hc, h⟩
      · exact Or.inr ⟨hc, Option.not_isSome_iff_eq_none.mp h⟩
    · rintro (⟨hc, _⟩ | ⟨hc, _⟩) <;> exact hc
  · rw [mem_filter_contactsP_fst, mem_filter_contactsP_snd]
    rintro ⟨⟨_, h1⟩, _, h2⟩
    rw [h2] at h1
    exact absurd h1 (by simp)

/-- Witness for filter_contacts_partition at a concrete two-record list
under the pipeline's classifier. -/
theorem filter_contacts_partition_witness :
    ((filter_contactsP record_filters_handle [twoLabelContact, oneLabelContact]).1.length
        + (filter_contactsP record_filters_handle [twoLabelContact, oneLabelContact]).2.length
        = ([twoLabelContact, oneLabelContact] : List Contact).length)
    ∧ (twoLabelContact ∈ ([twoLabelContact, oneLabelContact] : List Contact) ↔
        (twoLabelContact ∈ (filter_contactsP record_filters_handle [twoLabelContact, oneLabelContact]).1
          ∨ twoLabelContact ∈ (filter_contactsP record_filters_handle [twoLabelContact, oneLabelContact]).2))
    ∧ ¬(twoLabelContact ∈ (filter_contactsP record_filters_handle [twoLabelContact, oneLabelContact]).1
          ∧ twoLabelContact ∈ (filter_contactsP record_filters_handle [twoLabelContact, oneLabelContact]).2) :=
  ⟨(filter_contacts_partition record_filters_handle [twoLabelContact, oneLabelContact]).1,
   (filter_contacts_partition record_filters_handle [twoLabelContact, oneLabelContact]).2.1 twoLabelContact,
   (filter_contacts_partition record_filters_handle [twoLabelContact, oneLabelContact]).2.2 twoLabelContact⟩

/-- C10: every contact filter_contacts places in the keep list re-classifies
to a Some pair under the same deterministic chain, so the reason extraction
save_to_files performs by indexing the recomputed result never raises:
save_to_files on the two filter_contacts parts is always Some. -/
theorem keep_set_reason_total (cs : List Contact) :
    (∀ c, c ∈ (filter_contacts cs).1 →
      ∃ pr : String × String, record_filters_handle c = some pr)
    ∧ (save_to_files (filter_contacts cs).1 (filter_contacts cs).2).isSome := by
  constructor
  · intro c hc
    exact Option.isSome_iff_exists.mp
      ((mem_filter_contactsP_fst record_filters_handle cs c).mp hc).2
  · obtain ⟨rows, hrows⟩ := Option.isSome_iff_exists.mp
      (reason_rows_isSome (filter_contacts cs).1
        (fun c hc => ((mem_filter_contactsP_fst record_filters_handle cs c).mp hc).2))
    simp [save_to_files, hrows]

/-- Witness for keep_set_reason_total at a concrete singleton keep set. -/
theorem keep_set_reason_total_witness :
    (∃ pr : String × String, record_filters_handle twoLabelContact = some pr)
    ∧ (save_to_files (filter_contacts [twoLabelContact]).1
        (filter_contacts [twoLabelContact]).2).isSome :=
  ⟨(keep_set_reason_total [twoLabelContact]).1 twoLabelContact (by decide),
   (keep_set_reason_total [twoLabelContact]).2⟩

/-- Running the fetch loop over token-carrying pages followed by a
token-less page: every page's label-filtered items are appended in order,
the loop stops at the token-less page (whatever follows is not consumed),
no sleeps happen, and one call is issued per page. -/
theorem fetchGo_pages (label : Option String) (ib mr : Nat)
    (lastConns : List Contact) (rest : List Resp) :
    ∀ (ps : List (List Contact × Option String)),
      (∀ p ∈ ps, ∃ t : String, p.2 = some t ∧ t ≠ "") →
      ∀ (retries : Nat) (acc : List Contact) (waits : List Nat) (calls : Nat),
        fetchGo label ib mr
            (ps.map (fun p => Resp.page p.1 p.2) ++ Resp.page lastConns none :: rest)
            retries ib acc waits calls
          = .success
              (acc ++ ((ps.map (fun p => label_filtered label p.1)).flatten
                ++ label_filtered label lastConns))
              waits (calls + ps.length + 1) := by
  intro ps
  induction ps with
  | nil =>
    intro _ retries acc waits calls
    simp [fetchGo]
  | cons p ps ih =>
    intro hps retries acc waits calls
    obtain ⟨t, ht, htne⟩ := hps p (List.mem_cons_self p ps)
    obtain ⟨conns, tok⟩ := p
    simp only at ht
    subst ht
    simp only [List.map_cons, List.cons_append, fetchGo, if_neg htne]
    simp only [List.append_eq]
    rw [ih (fun q hq => hps q (List.mem_cons_of_mem _ hq))]
    congr 1
    · simp [List.append_assoc]
    · simp
      omega

/-- C3: on any response sequence made of pages whose next tokens are present
and truthy except for a final token-less page, fetch_contacts returns
exactly the page-order concatenation of each page's label-filtered items,
terminates at the token-less page without consuming any later response,
performs no waiting, and issues exactly one call per page. -/
theorem fetch_contacts_paginates (label : String) (ib mr : Nat)
    (ps : List (List Contact × Option String)) (lastConns : List Contact)
    (rest : List Resp)
    (hps : ∀ p ∈ ps, ∃ t : String, p.2 = some t ∧ t ≠ "") :
    fetch_contacts (some label) ib mr
        (ps.map (fun p => Resp.page p.1 p.2) ++ Resp.page lastConns none :: rest)
      = .success
          ((ps.map (fun p => label_filtered (some label) p.1)).flatten
            ++ label_filtered (some label) lastConns)
          [] (ps.length + 1) := by
  have h := fetchGo_pages (some label) ib mr lastConns rest ps hps 0 [] [] 0
  simpa [fetch_contacts] using h

/-- Witness for fetch_contacts_paginates: two pages, tokens A then none. -/
theorem fetch_contacts_paginates_witness :
    fetch_contacts (some "g1") 2 6
        (([([spamContact], some "tokA")] : List (List Contact × Option String)).map
            (fun p => Resp.page p.1 p.2)
          ++ Resp.page [spamContact2, oneLabelContact] none :: [])
      = .success
          ((([([spamContact], some "tokA")] : List (List Contact × Option String)).map
              (fun p => label_filtered (some "g1") p.1)).flatten
            ++ label_filtered (some "g1") [spamContact2, oneLabelContact])
          [] (([([spamContact], some "tokA")] : List (List Contact × Option String)).length + 1) :=
  fetch_contacts_paginates "g1" 2 6 [([spamContact], some "tokA")]
    [spamContact2, oneLabelContact] []
    (by
      intro p hp
      rw [List.mem_singleton] at hp
      subst hp
      exact ⟨"tokA", rfl, by decide⟩)

/-- C4 counterexample: cleanup.fetch_contacts — the page fetch the pipeline
actually runs — answers six consecutive 429 responses with waits 1,2,4,8,16
and then fails permanently after its default cap of 5 retries, never
reaching the page that follows; with the claimed initial backoff 2 and cap 6
the same response sequence is survived with waits 2,4,8,16,32,64 and the
fetch succeeds. -/
theorem cleanup_fetch_backoff_cex :
    cleanup_fetch_contacts (some "g1") 5
        (List.replicate 6 (Resp.httpError 429) ++ [Resp.page [spamContact] none])
      = .failure [1, 2, 4, 8, 16] 6
    ∧ fetch_contacts (some "g1") 2 6
        (List.replicate 6 (Resp.httpError 429) ++ [Resp.page [spamContact] none])
      = .success [spamContact] [2, 4, 8, 16, 32, 64] 7 :=
  ⟨rfl, rfl⟩

/-- C4 amended: with initial backoff 2 and retry cap 6 — the defaults of
google_api.fetch_contacts and of both delete loops — consecutive transient
failures produce exactly the waits 2,4,8,16,32,64 and then permanent
failure, while cleanup.fetch_contacts uses initial backoff 1 with default
cap 5, producing waits 1,2,4,8,16; and on any operation a success or a
non-transient status stops the retry sequence immediately with no further
waiting. -/
theorem retry_backoff_profiles :
    fetch_contacts (some "g1") 2 6 (List.replicate 7 (Resp.httpError 429))
        = .failure [2, 4, 8, 16, 32, 64] 7
    ∧ delete_contacts 6 2 [spamContact] (List.replicate 7 (DelResp.httpError 503))
        = some ([("people/c1", false)], [2, 4, 8, 16, 32, 64], 7)
    ∧ cleanup_fetch_contacts (some "g1") 5 (List.replicate 6 (Resp.httpError 429))
        = .failure [1, 2, 4, 8, 16] 6
    ∧ fetch_contacts (some "g1") 2 6 [Resp.httpError 404] = .failure [] 1
    ∧ delete_contacts 6 2 [spamContact] [DelResp.httpError 404]
        = some ([("people/c1", false)], [], 1)
    ∧ fetch_contacts (some "g1") 2 6
        [Resp.httpError 429, Resp.page [spamContact] none]
        = .success [spamContact] [2] 2 :=
  ⟨rfl, rfl, rfl, rfl, rfl, rfl⟩

/-- C5 counterexample: with google_api.fetch_contacts defaults (backoff 2,
cap 6), six transient failures recovered before the first page exhaust the
retry budget for all later pages — one further 429 after a successful page
aborts the whole fetch — whereas the spec-modelled variant that grants each
page a fresh retry budget retries it and completes. -/
theorem fetch_retry_budget_cex :
    fetch_contacts (some "g1") 2 6
        (List.replicate 6 (Resp.httpError 429)
          ++ [Resp.page [spamContact] (some "tokB"), Resp.httpError 429,
              Resp.page [spamContact2] none])
      = .failure [2, 4, 8, 16, 32, 64] 8
    ∧ fetch_contacts_specReset (some "g1") 2 6
        (List.replicate 6 (Resp.httpError 429)
          ++ [Resp.page [spamContact] (some "tokB"), Resp.httpError 429,
              Resp.page [spamContact2] none])
      = .success [spamContact, spamContact2] [2, 4, 8, 16, 32, 64, 2] 9 :=
  ⟨rfl, rfl⟩

/-- C5 amended: within one fetch the retry counter is shared across the
whole run and never reset, while the backoff interval is reset to its
initial value after every page that carries a next token; in the delete loop
every record starts with retries = 0 and — backoff_time being reset after
each record — a fresh initial backoff. -/
theorem retry_state_scoping :
    fetch_contacts (some "g1") 2 6
        (List.replicate 6 (Resp.httpError 429)
          ++ [Resp.page [spamContact] (some "tokB"), Resp.httpError 429])
      = .failure [2, 4, 8, 16, 32, 64] 8
    ∧ fetch_contacts (some "g1") 2 6
        [Resp.httpError 429, Resp.page [spamContact] (some "tokB"),
         Resp.httpError 429, Resp.page [spamContact2] none]
      = .success [spamContact, spamContact2] [2, 2] 4
    ∧ delete_contacts 6 2 [spamContact, spamContact2]
        [DelResp.httpError 429, DelResp.ok, DelResp.httpError 429, DelResp.ok]
      = some ([("people/c1", true), ("people/c2", true)], [2, 2], 4) :=
  ⟨rfl, rfl, rfl⟩

/-- C6: whenever the page fetch fails permanently, it returns the absent
result — FetchResult.failure carries no contact list — and the run ends in
the TypeError filter_contacts raises on len(None): no CSV file is written
and no delete call is issued. -/
theorem fetch_failure_blocks_deletion (groups : List (String × String))
    (label : Option String) (ps : List Resp) (ds : List DelResp)
    (waits : List Nat) (calls : Nat)
    (h : cleanup_fetch_contacts (get_label_id groups label) 5 ps
          = .failure waits calls) :
    execute groups label ps ds
      = some { labelId := get_label_id groups label, groupListCalls := 1,
               fetchCalls := calls, filesWritten := 0, deleteCalls := 0,
               deleteResults := [], crashed := true } := by
  simp only [execute, h]

/-- Witness for fetch_failure_blocks_deletion: a non-transient 404 on the
very first page call. -/
theorem fetch_failure_blocks_deletion_witness :
    execute [("Spam", "g1")] (some "Spam") [Resp.httpError 404] []
      = some { labelId := get_label_id [("Spam", "g1")] (some "Spam"),
               groupListCalls := 1, fetchCalls := 1, filesWritten := 0,
               deleteCalls := 0, deleteResults := [], crashed := true } :=
  fetch_failure_blocks_deletion [("Spam", "g1")] (some "Spam")
    [Resp.httpError 404] [] [] 1 rfl

/-- C7 (code bug): with the label argument missing (None) — and likewise
with a label name that resolves to no group — execute does not stop at
startup: it still issues the contactGroups.list call and a paginated
connections.list call, filters every connection out (a Python string never
equals None), writes both CSV files, and completes without error; only the
delete phase happens to be empty. -/
theorem label_config_error_still_runs :
    execute [("Spam", "g1")] none [Resp.page [spamContact] none] []
      = some { labelId := none, groupListCalls := 1, fetchCalls := 1,
               filesWritten := 2, deleteCalls := 0, deleteResults := [],
               crashed := false }
    ∧ execute [("Spam", "g1")] (some "Work") [Resp.page [spamContact] none] []
      = some { labelId := none, groupListCalls := 1, fetchCalls := 1,
               filesWritten := 2, deleteCalls := 0, deleteResults := [],
               crashed := false } :=
  ⟨rfl, rfl⟩

/-- When the delete loop completes under a script, it reports exactly one
(resourceName, outcome) pair per input record, in input order. -/
theorem delete_contacts_map_fst (mr ib : Nat) :
    ∀ (cs : List Contact) (ds : List DelResp) (res : List (String × Bool))
      (ws : List Nat) (n : Nat),
      delete_contacts mr ib cs ds = some (res, ws, n) →
      res.map Prod.fst = cs.map Contact.resourceName := by
  intro cs
  induction cs with
  | nil =>
    intro ds res ws n h
    simp only [delete_contacts, Option.some.injEq, Prod.mk.injEq] at h
    rw [← h.1]
    simp
  | cons c cs ih =>
    intro ds res ws n h
    cases e : delete_one mr ds 0 ib with
    | none => simp [delete_contacts, e] at h
    | some r =>
      simp only [delete_contacts, e, Option.map_eq_some', Prod.mk.injEq] at h
      obtain ⟨⟨res2, ws2, n2⟩, hrec, h1, _, _⟩ := h
      subst h1
      simp only [List.map_cons, List.cons.injEq]
      exact ⟨trivial, ih r.2.1 res2 ws2 n2 hrec⟩

/-- C8: the delete phase issues one delete-attempt sequence per record and
reports one outcome per input record, in input order, and a permanent
failure on one record does not abort the batch: with R1 failing on a
non-transient 404 and R2 succeeding, R2's delete is still issued and
succeeds, the batch reporting one failure and one success in two calls. -/
theorem delete_contacts_continues_past_failure :
    (∀ (mr ib : Nat) (cs : List Contact) (ds : List DelResp)
        (res : List (String × Bool)) (ws : List Nat) (n : Nat),
        delete_contacts mr ib cs ds = some (res, ws, n) →
        res.map Prod.fst = cs.map Contact.resourceName)
    ∧ delete_contacts 6 2 [spamContact, spamContact2]
        [DelResp.httpError 404, DelResp.ok]
        = some ([("people/c1", false), ("people/c2", true)], [], 2) :=
  ⟨delete_contacts_map_fst, rfl⟩

/-- Witness for delete_contacts_continues_past_failure at the two-record
batch: the reported outcomes cover both records in input order. -/
theorem delete_contacts_continues_past_failure_witness :
    ([("people/c1", false), ("people/c2", true)] : List (String × Bool)).map Prod.fst
      = ([spamContact, spamContact2] : List Contact).map Contact.resourceName :=
  delete_contacts_continues_past_failure.1 6 2 [spamContact, spamContact2]
    [DelResp.httpError 404, DelResp.ok]
    [("people/c1", false), ("people/c2", true)] [] 2 rfl

/-- A throttled call that arrives exactly when the timestamp x was recorded
starts at least T after any point s at or before x. -/
theorem le_throttleStart_self (T s x : ℚ) (hx : s ≤ x) :
    s + T ≤ throttleStart T x x := by
  unfold throttleStart
  split
  · linarith
  · rename_i h
    rw [not_lt] at h
    linarith

/-- Successive throttled call starts in a tight loop are at least T apart. -/
theorem runCalls_chain (T : ℚ) :
    ∀ (ds : List ℚ), (∀ d ∈ ds, 0 ≤ d) → ∀ (last now : ℚ),
      List.Chain' (fun a b => a + T ≤ b) (runCalls T last now ds) := by
  intro ds
  induction ds with
  | nil =>
    intro _ last now
    simp [runCalls]
  | cons d ds ih =>
    intro hd last now
    have hd0 : 0 ≤ d := hd d (List.mem_cons_self d ds)
    have hds : ∀ x ∈ ds, 0 ≤ x := fun x hx => hd x (List.mem_cons_of_mem d hx)
    have hch := ih hds (throttleStart T last now + d) (throttleStart T last now + d)
    cases ds with
    | nil => simp [runCalls]
    | cons d2 ds2 =>
      simp only [runCalls, rate_limited_function]
      rw [List.chain'_cons]
      constructor
      · exact le_throttleStart_self T (throttleStart T last now)
          (throttleStart T last now + d) (by linarith)
      · simpa only [runCalls, rate_limited_function] using hch

/-- The tight loop performs one call per supplied duration. -/
theorem runCalls_length (T : ℚ) :
    ∀ (last now : ℚ) (ds : List ℚ),
      (runCalls T last now ds).length = ds.length := by
  intro last now ds
  induction ds generalizing last now with
  | nil => rfl
  | cons d ds ih => simp [runCalls, ih]

/-- Along any chain of points each at least T after the one before, the last
point is at least (length - 1) copies of T after the first. -/
theorem chain_head_getLastQ (T : ℚ) :
    ∀ (l : List ℚ), List.Chain' (fun a b => a + T ≤ b) l →
      ∀ x ∈ l.head?, ∀ y ∈ l.getLast?, x + ((l.length - 1 : ℕ) : ℚ) * T ≤ y
  | [] => by
    intro _ x hx
    simp at hx
  | [a] => by
    intro _ x hx y hy
    simp at hx hy
    subst hx
    subst hy
    simp
  | a :: b :: t => by
    intro hch x hx y hy
    rw [List.chain'_cons] at hch
    rw [List.getLast?_cons_cons] at hy
    simp only [List.head?_cons, Option.mem_def, Option.some.injEq] at hx
    subst hx
    have ih := chain_head_getLastQ T (b :: t) hch.2 b (by simp) y hy
    have hl1 : ((a :: b :: t).length - 1 : ℕ) = t.length + 1 := by simp
    have hl2 : ((b :: t).length - 1 : ℕ) = t.length := by simp
    rw [hl2] at ih
    rw [hl1]
    have hab := hch.1
    push_cast at ih ⊢
    linarith

/-- C9 amended: over the idealised exact clock, a tight loop of throttled
calls with nonnegative wrapped-call durations permits one start per call,
keeps consecutive starts at least min_interval = 60/maxPerMinute apart, and
therefore spreads K calls over at least (K - 1) * 60/maxPerMinute seconds
from first start to last start. -/
theorem rate_limiter_spacing (maxPerMinute last now : ℚ) (ds : List ℚ)
    (hd : ∀ d ∈ ds, 0 ≤ d) :
    (runCalls (min_interval maxPerMinute) last now ds).length = ds.length
    ∧ List.Chain' (fun a b => a + min_interval maxPerMinute ≤ b)
        (runCalls (min_interval maxPerMinute) last now ds)
    ∧ ∀ x ∈ (runCalls (min_interval maxPerMinute) last now ds).head?,
      ∀ y ∈ (runCalls (min_interval maxPerMinute) last now ds).getLast?,
        x + ((ds.length - 1 : ℕ) : ℚ) * min_interval maxPerMinute ≤ y := by
  refine ⟨runCalls_length _ last now ds, runCalls_chain _ ds hd last now, ?_⟩
  intro x hx y hy
  have h := chain_head_getLastQ (min_interval maxPerMinute)
    (runCalls (min_interval maxPerMinute) last now ds)
    (runCalls_chain _ ds hd last now) x hx y hy
  rwa [runCalls_length] at h

/-- Witness for rate_limiter_spacing: three zero-duration calls at ceiling
90 per minute. -/
theorem rate_limiter_spacing_witness :
    (runCalls (min_interval 90) 0 0 [0, 0, 0]).length = ([0, 0, 0] : List ℚ).length
    ∧ List.Chain' (fun a b => a + min_interval 90 ≤ b)
        (runCalls (min_interval 90) 0 0 [0, 0, 0])
    ∧ ∀ x ∈ (runCalls (min_interval 90) 0 0 [0, 0, 0]).head?,
      ∀ y ∈ (runCalls (min_interval 90) 0 0 [0, 0, 0]).getLast?,
        x + ((([0, 0, 0] : List ℚ).length - 1 : ℕ) : ℚ) * min_interval 90 ≤ y :=
  rate_limiter_spacing 90 0 0 [0, 0, 0] (by decide)

/-- C9 counterexample: the wrapper does not record the invocation's start
time: with ceiling 90 per minute a call arriving at time 0 with stored
timestamp 0 starts at 2/3, yet after a 5-second wrapped call the recorded
timestamp is the completion time 2/3 + 5, which differs from the start. -/
theorem rate_limiter_timestamp_cex :
    (rate_limited_function (min_interval 90) 0 0 5).2
      ≠ (rate_limited_function (min_interval 90) 0 0 5).1 := by
  norm_num [rate_limited_function, throttleStart, min_interval]
